import Mathlib

/-!
Verification of the white-rAbbIt hybrid malware-analysis core: a shallow
embedding of the score-fusion algorithm (gui/white_rAbbIt_gui.py,
calculate_overall_score), the four dynamic-analysis capture stages
(dynamic analysis/.entire_dynamic_analysis_v6.py) and the emulator
readiness polling (gui/dynamic_feature_extraction_thread.py), together
with theorems settling the specification claims about them.

Python float confidences are modelled as rationals; classifications keep
the source encoding 1 = malicious, 0 = benign.
-/

namespace WhiteRabbit

/-! ## Score fusion (calculate_overall_score) -/

/-- The four inputs read by calculate_overall_score:
static_prediction[0], static_predict_probability[0][1],
dynamic_classification and dynamic_confidence_score. -/
structure FusionInput where
  static_classification : Nat
  P_static : ℚ
  dynamic_classification : Nat
  dynamic_confidence_score : ℚ
  deriving DecidableEq, Repr

/-- The outputs stored by calculate_overall_score: self.P_combined,
self.certainty_score and the overall classification displayed. -/
structure FusionOutcome where
  P_combined : ℚ
  certainty_score : ℚ
  overall_classification : Nat
  deriving DecidableEq, Repr

/-- Weight for dynamic analysis (wd = 0.60 in the source). -/
def wd : ℚ := 60 / 100

/-- Weight for static analysis (ws = 0.40 in the source). -/
def ws : ℚ := 40 / 100

/-- Embedding of calculate_overall_score (white_rAbbIt_gui.py):
invert P_dynamic when the dynamic classification is benign, combine with
weights 0.60 / 0.40, take certainty as distance from 0.5 scaled by 100,
classify malicious on P_combined >= 0.5, then re-express P_combined as
1 - P_combined when both classifications are benign. -/
def calculate_overall_score (inp : FusionInput) : FusionOutcome :=
  let P_dynamic :=
    if inp.dynamic_classification = 0 then 1 - inp.dynamic_confidence_score
    else inp.dynamic_confidence_score
  let P_combined := wd * P_dynamic + ws * inp.P_static
  let certainty_score := |P_combined - 1/2| * 100
  let overall_classification := if P_combined ≥ 1/2 then 1 else 0
  let P_combined :=
    if inp.dynamic_classification = 0 ∧ inp.static_classification = 0 then
      1 - P_combined
    else P_combined
  ⟨P_combined, certainty_score, overall_classification⟩

example :
    calculate_overall_score ⟨1, 9/10, 1, 8/10⟩ =
      ⟨84/100, 34, 1⟩ := by
  simp only [calculate_overall_score, wd, ws, FusionOutcome.mk.injEq]
  norm_num
  rw [abs_of_nonneg (by norm_num : (0:ℚ) ≤ 17/50)]
  norm_num

example :
    calculate_overall_score ⟨0, 3/10, 0, 65/100⟩ =
      ⟨67/100, 17, 0⟩ := by
  simp only [calculate_overall_score, wd, ws, FusionOutcome.mk.injEq]
  norm_num
  rw [abs_of_nonneg (by norm_num : (0:ℚ) ≤ 17/100)]
  norm_num

/-- The dynamic confidence after the benign inversion, and the raw weighted
combination, stay inside the unit interval when the confidences do. -/
lemma raw_combined_mem_unit (dc : Nat) (ps pd : ℚ)
    (hps0 : 0 ≤ ps) (hps1 : ps ≤ 1) (hpd0 : 0 ≤ pd) (hpd1 : pd ≤ 1) :
    0 ≤ wd * (if dc = 0 then 1 - pd else pd) + ws * ps ∧
    wd * (if dc = 0 then 1 - pd else pd) + ws * ps ≤ 1 := by
  have h : 0 ≤ (if dc = 0 then 1 - pd else pd) ∧
      (if dc = 0 then 1 - pd else pd) ≤ 1 := by
    split <;> constructor <;> linarith
  rw [wd, ws]
  constructor <;> nlinarith [h.1, h.2]

/-- The certainty score is the scaled distance of the raw combination
from 1/2, hence at most 50 on unit-interval inputs. -/
lemma abs_dist_half_le (x : ℚ) (h0 : 0 ≤ x) (h1 : x ≤ 1) :
    |x - 1/2| ≤ 1/2 :=
  abs_le.mpr ⟨by linarith, by linarith⟩

/-- C1: the fusion inverts the dynamic confidence exactly when the dynamic
classification is benign, takes the static confidence as-is, combines with
weights 0.60 and 0.40, and classifies malicious exactly when the
combination is at least 0.5 (so the 0.5 tie is malicious). -/
theorem fusion_combines_and_classifies (sc dc : Nat) (ps pd : ℚ)
    (hps0 : 0 ≤ ps) (hps1 : ps ≤ 1) (hpd0 : 0 ≤ pd) (hpd1 : pd ≤ 1) :
    (calculate_overall_score ⟨sc, ps, dc, pd⟩).overall_classification = 1 ↔
      (60/100 : ℚ) * (if dc = 0 then 1 - pd else pd) + (40/100) * ps ≥ 1/2 := by
  simp only [calculate_overall_score, wd, ws]
  split
  case isTrue h => simpa using h
  case isFalse h => simpa using h

/-- Witness for C1 at the 0.5 tie: static (malicious, 0.5) and dynamic
(malicious, 0.5) combine to exactly 0.5 and classify malicious. -/
theorem fusion_combines_and_classifies_witness :
    (calculate_overall_score ⟨1, 1/2, 1, 1/2⟩).overall_classification = 1 :=
  (fusion_combines_and_classifies 1 1 (1/2) (1/2) (by norm_num) (by norm_num)
    (by norm_num) (by norm_num)).mpr (by norm_num)

/-- C4: the both-benign adjustment changes only the reported combined
probability (to 1 minus the raw weighted sum); the certainty score and the
final classification are computed from the unadjusted weighted sum, and
when the classifications are not both benign the reported probability is
the weighted sum unchanged. -/
theorem benign_benign_adjustment_frame (sc dc : Nat) (ps pd : ℚ) :
    (calculate_overall_score ⟨sc, ps, dc, pd⟩).P_combined =
      (if dc = 0 ∧ sc = 0 then
        1 - ((60/100 : ℚ) * (if dc = 0 then 1 - pd else pd) + (40/100) * ps)
      else (60/100 : ℚ) * (if dc = 0 then 1 - pd else pd) + (40/100) * ps) ∧
    (calculate_overall_score ⟨sc, ps, dc, pd⟩).certainty_score =
      |(60/100 : ℚ) * (if dc = 0 then 1 - pd else pd) + (40/100) * ps - 1/2|
        * 100 ∧
    (calculate_overall_score ⟨sc, ps, dc, pd⟩).overall_classification =
      (if (60/100 : ℚ) * (if dc = 0 then 1 - pd else pd) + (40/100) * ps
          ≥ 1/2 then 1 else 0) := by
  refine ⟨?_, ?_, ?_⟩ <;> simp only [calculate_overall_score, wd, ws]

/-- C5: on unit-interval confidences the reported combined probability lies
in [0,1] and the certainty score lies in [0,100]. -/
theorem fusion_output_in_range (sc dc : Nat) (ps pd : ℚ)
    (hps0 : 0 ≤ ps) (hps1 : ps ≤ 1) (hpd0 : 0 ≤ pd) (hpd1 : pd ≤ 1) :
    0 ≤ (calculate_overall_score ⟨sc, ps, dc, pd⟩).P_combined ∧
    (calculate_overall_score ⟨sc, ps, dc, pd⟩).P_combined ≤ 1 ∧
    0 ≤ (calculate_overall_score ⟨sc, ps, dc, pd⟩).certainty_score ∧
    (calculate_overall_score ⟨sc, ps, dc, pd⟩).certainty_score ≤ 100 := by
  obtain ⟨hr0, hr1⟩ := raw_combined_mem_unit dc ps pd hps0 hps1 hpd0 hpd1
  have habs := abs_dist_half_le _ hr0 hr1
  simp only [calculate_overall_score]
  refine ⟨?_, ?_, ?_, ?_⟩
  · split <;> linarith
  · split <;> linarith
  · exact mul_nonneg (abs_nonneg _) (by norm_num)
  · nlinarith [habs]

/-- Witness for C5 at static (benign, 0.30 malicious-tail) and dynamic
(benign, 0.65). -/
theorem fusion_output_in_range_witness :
    0 ≤ (calculate_overall_score ⟨0, 3/10, 0, 65/100⟩).P_combined ∧
    (calculate_overall_score ⟨0, 3/10, 0, 65/100⟩).P_combined ≤ 1 ∧
    0 ≤ (calculate_overall_score ⟨0, 3/10, 0, 65/100⟩).certainty_score ∧
    (calculate_overall_score ⟨0, 3/10, 0, 65/100⟩).certainty_score ≤ 100 :=
  fusion_output_in_range 0 0 (3/10) (65/100) (by norm_num) (by norm_num)
    (by norm_num) (by norm_num)

/-- C6: the fusion is a pure function of its four inputs: two invocations
with identical inputs produce identical combined probability, certainty
score and final classification. -/
theorem fusion_deterministic (a b : FusionInput) (h : a = b) :
    calculate_overall_score a = calculate_overall_score b := by
  rw [h]

/-- Witness for C6 at a concrete repeated invocation. -/
theorem fusion_deterministic_witness :
    calculate_overall_score ⟨1, 9/10, 1, 8/10⟩ =
      calculate_overall_score ⟨1, 9/10, 1, 8/10⟩ :=
  fusion_deterministic ⟨1, 9/10, 1, 8/10⟩ ⟨1, 9/10, 1, 8/10⟩ rfl

/-- C10: on unit-interval confidences the certainty score is in fact at
most 50, strictly tighter than the [0,100] range the spec promises. -/
theorem certainty_score_le_fifty (sc dc : Nat) (ps pd : ℚ)
    (hps0 : 0 ≤ ps) (hps1 : ps ≤ 1) (hpd0 : 0 ≤ pd) (hpd1 : pd ≤ 1) :
    (calculate_overall_score ⟨sc, ps, dc, pd⟩).certainty_score ≤ 50 := by
  obtain ⟨hr0, hr1⟩ := raw_combined_mem_unit dc ps pd hps0 hps1 hpd0 hpd1
  have habs := abs_dist_half_le _ hr0 hr1
  simp only [calculate_overall_score]
  nlinarith [habs]

/-- Witness for C10 at static (malicious, 0.9) and dynamic
(malicious, 0.8). -/
theorem certainty_score_le_fifty_witness :
    (calculate_overall_score ⟨1, 9/10, 1, 8/10⟩).certainty_score ≤ 50 :=
  certainty_score_le_fifty 1 1 (9/10) (8/10) (by norm_num) (by norm_num)
    (by norm_num) (by norm_num)

/-! ## Dynamic analysis stages (.entire_dynamic_analysis_v6.py)

Each stage wraps an external capture process.  The environment visible to
a stage is modelled explicitly: whether its Popen call spawns, the text
artifact its capture produced (with none standing for a file whose open
raises), and for the syscall stage the stdout of the pidof lookup.  The
shared dynamic_features dict is an association list in insertion order;
all writes happen under one lock in the source, so the sequential model
is faithful to the single-orchestrator-thread execution. -/

/-- The shared dynamic_features dictionary. -/
abbrev FeatureMap := List (String × Nat)

/-- Python dict assignment: replace the value when the key exists,
append it otherwise. -/
def setFeature : FeatureMap → String → Nat → FeatureMap
  | [], k, v => [(k, v)]
  | (k0, v0) :: rest, k, v =>
    if k0 = k then (k, v) :: rest else (k0, v0) :: setFeature rest k v

/-- The keys present in the dictionary, in insertion order. -/
def featureKeys (m : FeatureMap) : List String := m.map Prod.fst

/-- The Python membership test needle in line: the needle occurs as a
contiguous substring of the line. -/
def containsMarker (needle line : String) : Bool :=
  line.toList.tails.any fun t => needle.toList.isPrefixOf t

/-- The externally visible effects a stop operation can perform. -/
inductive StopAction where
  | terminate
  | wait
  | closeFile
  | pkill (tool : String)
  deriving DecidableEq, Repr

/-- LogCollector.start_logcat: on success a process handle and an open
log-file sink; on a spawn failure the exception is caught and
(None, None) is returned. -/
def start_logcat (spawns : Bool) : Option Unit × Option Unit :=
  if spawns then (some (), some ()) else (none, none)

/-- LogCollector.stop_logcat: terminate and await the process when the
handle is non-null, close the sink when it is non-null. -/
def stop_logcat (process log_file : Option Unit) : List StopAction :=
  (if process.isSome then [StopAction.terminate, StopAction.wait] else []) ++
    (if log_file.isSome then [StopAction.closeFile] else [])

/-- LogCollector.parse_log_file: count lines containing ERROR and
WARNING and store both counts under the lock; any exception (such as a
missing artifact) is caught and leaves the dictionary untouched. -/
def parse_log_file (artifact : Option (List String)) (m : FeatureMap) :
    FeatureMap :=
  match artifact with
  | none => m
  | some lines =>
    let error_count := lines.countP fun line => containsMarker "ERROR" line
    let warning_count := lines.countP fun line => containsMarker "WARNING" line
    setFeature (setFeature m "log_errors" error_count)
      "log_warnings" warning_count

/-- LogCollector.run: start logcat, return at once if the process failed
to start, otherwise sleep then (in the finally block) stop logcat and
parse the log file. -/
def LogCollector_run (logcat_spawns : Bool)
    (log_artifact : Option (List String)) (m : FeatureMap) : FeatureMap :=
  match start_logcat logcat_spawns with
  | (none, _) => m
  | (some _, _) => parse_log_file log_artifact m

/-- Python str.strip(): drop leading and trailing whitespace. -/
def strip (s : String) : String :=
  String.mk
    ((((s.toList.dropWhile Char.isWhitespace).reverse).dropWhile
      Char.isWhitespace).reverse)

/-- SystemCallMonitor.get_app_pid: strip the pidof stdout and return it
when non-empty; an empty result or an exception yields None. -/
def get_app_pid (pidof_stdout : Option String) : Option String :=
  match pidof_stdout with
  | none => none
  | some out =>
    let pid := strip out
    if pid = "" then none else some pid

/-- SystemCallMonitor.start_strace: a handle on success, None when the
spawn raises. -/
def start_strace (spawns : Bool) : Option Unit :=
  if spawns then some () else none

/-- SystemCallMonitor.stop_strace: pkill strace on the device, then
terminate and await the local process, all only when the handle is
non-null. -/
def stop_strace (process : Option Unit) : List StopAction :=
  if process.isSome then
    [StopAction.pkill "strace", StopAction.terminate, StopAction.wait]
  else []

/-- SystemCallMonitor.parse_strace_output: count all lines plus the
open/read/write and connect/send/recv lines and store the three counts
under the lock; exceptions are caught and write nothing. -/
def parse_strace_output (artifact : Option (List String)) (m : FeatureMap) :
    FeatureMap :=
  match artifact with
  | none => m
  | some lines =>
    let system_call_count := lines.length
    let file_access_calls := lines.countP fun line =>
      containsMarker "open" line || containsMarker "read" line ||
        containsMarker "write" line
    let network_calls := lines.countP fun line =>
      containsMarker "connect" line || containsMarker "send" line ||
        containsMarker "recv" line
    setFeature (setFeature (setFeature m
      "system_calls_count" system_call_count)
      "file_access_calls" file_access_calls)
      "network_calls" network_calls

/-- SystemCallMonitor.run: resolve the pid (return silently when it
cannot be resolved), start strace (return when the spawn fails), sleep,
then in the finally block stop strace and pull the output.  The source
never invokes parse_strace_output here, so no feature key is written on
any path. -/
def SystemCallMonitor_run (pidof_stdout : Option String)
    (strace_spawns : Bool) (_strace_artifact : Option (List String))
    (m : FeatureMap) : FeatureMap :=
  match get_app_pid pidof_stdout with
  | none => m
  | some _ =>
    match start_strace strace_spawns with
    | none => m
    | some _ => m

/-- FileSystemMonitor.start_inotifywait: handle and output sink on
success, (None, None) when the spawn raises. -/
def start_inotifywait (spawns : Bool) : Option Unit × Option Unit :=
  if spawns then (some (), some ()) else (none, none)

/-- FileSystemMonitor.stop_inotifywait: pkill inotifywait then terminate
and await the local process when the handle is non-null; close the sink
when it is non-null. -/
def stop_inotifywait (process outfile : Option Unit) : List StopAction :=
  (if process.isSome then
    [StopAction.pkill "inotifywait", StopAction.terminate, StopAction.wait]
  else []) ++
    (if outfile.isSome then [StopAction.closeFile] else [])

/-- FileSystemMonitor.parse_filesystem_changes: count CREATE and DELETE
lines and store both counts under the lock; exceptions are caught and
write nothing. -/
def parse_filesystem_changes (artifact : Option (List String))
    (m : FeatureMap) : FeatureMap :=
  match artifact with
  | none => m
  | some lines =>
    let files_created := lines.countP fun line => containsMarker "CREATE" line
    let files_deleted := lines.countP fun line => containsMarker "DELETE" line
    setFeature (setFeature m "files_created" files_created)
      "files_deleted" files_deleted

/-- FileSystemMonitor.run: start inotifywait, return at once if the
process failed to start, otherwise sleep then stop and parse. -/
def FileSystemMonitor_run (inotify_spawns : Bool)
    (fs_artifact : Option (List String)) (m : FeatureMap) : FeatureMap :=
  match start_inotifywait inotify_spawns with
  | (none, _) => m
  | (some _, _) => parse_filesystem_changes fs_artifact m

/-- NetworkCapture.start_tcpdump: a handle on success, None when the
spawn raises. -/
def start_tcpdump (spawns : Bool) : Option Unit :=
  if spawns then some () else none

/-- NetworkCapture.stop_tcpdump: pkill tcpdump then terminate and await
the local process, all only when the handle is non-null. -/
def stop_tcpdump (process : Option Unit) : List StopAction :=
  if process.isSome then
    [StopAction.pkill "tcpdump", StopAction.terminate, StopAction.wait]
  else []

/-- The accumulation loop of NetworkCapture.parse_pcap_file over the
tshark io,stat report: rows with a bar and Frames and more than five
bar-separated fields contribute their frame and byte columns; a malformed
integer or a missing column raises IndexError/ValueError, modelled as
none, which the caller catches. -/
def pcapAccumulate (lines : List String) : Option (Nat × Nat × Nat) :=
  lines.foldlM (fun (acc : Nat × Nat × Nat) line =>
    if containsMarker "|" line && containsMarker "Frames" line then
      let fields := line.splitOn "|"
      if fields.length > 5 then
        match (fields.get? 2).bind (fun s => s.trim.toNat?),
            (fields.get? 5).bind (fun s => s.trim.toNat?),
            (fields.get? 6).bind (fun s => s.trim.toNat?) with
        | some a, some b, some c => some (acc.1 + a, acc.2.1 + b, acc.2.2 + c)
        | _, _, _ => none
      else some acc
    else some acc) (0, 0, 0)

/-- NetworkCapture.parse_pcap_file: run tshark over the capture and
store the three aggregate statistics under the lock; any exception
(tshark missing, malformed report) is caught and writes nothing. -/
def parse_pcap_file (tshark_stdout : Option (List String)) (m : FeatureMap) :
    FeatureMap :=
  match tshark_stdout with
  | none => m
  | some lines =>
    match pcapAccumulate lines with
    | none => m
    | some (network_connections, data_sent, data_received) =>
      setFeature (setFeature (setFeature m
        "network_connections" network_connections)
        "data_sent_bytes" data_sent)
        "data_received_bytes" data_received

/-- NetworkCapture.run: start tcpdump, return at once if the process
failed to start, otherwise sleep then in the finally block stop tcpdump
and pull the pcap.  The source never invokes parse_pcap_file here, so no
feature key is written on any path. -/
def NetworkCapture_run (tcpdump_spawns : Bool)
    (_tshark_stdout : Option (List String)) (m : FeatureMap) : FeatureMap :=
  match start_tcpdump tcpdump_spawns with
  | none => m
  | some _ => m

/-- The environment a whole run of the four stages observes. -/
structure RunWorld where
  logcat_spawns : Bool
  log_artifact : Option (List String)
  pidof_stdout : Option String
  strace_spawns : Bool
  strace_artifact : Option (List String)
  inotify_spawns : Bool
  fs_artifact : Option (List String)
  tcpdump_spawns : Bool
  tshark_stdout : Option (List String)

/-- DynamicAnalysisFramework.run_analysis, stage portion: the four stage
runs in their fixed order over the initially empty dynamic_features
dictionary. -/
def run_analysis (w : RunWorld) : FeatureMap :=
  let m : FeatureMap := []
  let m := LogCollector_run w.logcat_spawns w.log_artifact m
  let m := SystemCallMonitor_run w.pidof_stdout w.strace_spawns
    w.strace_artifact m
  let m := FileSystemMonitor_run w.inotify_spawns w.fs_artifact m
  let m := NetworkCapture_run w.tcpdump_spawns w.tshark_stdout m
  m

/-- A run in which every capture process spawns, the pid resolves, and
every artifact is present and well formed. -/
def fullWorld : RunWorld where
  logcat_spawns := true
  log_artifact := some ["10-12 ERROR crash in app", "10-12 WARNING low memory"]
  pidof_stdout := some "12345"
  strace_spawns := true
  strace_artifact := some ["openat(AT_FDCWD, ...)", "connect(3, ...)"]
  inotify_spawns := true
  fs_artifact := some ["/data/ CREATE f.txt", "/data/ DELETE g.txt"]
  tcpdump_spawns := true
  tshark_stdout := some ["| Frames | 5 | 0 | 0 | 100 | 200 |"]

/-- The same run except that pidof prints nothing, so the syscall
stage's target pid cannot be resolved. -/
def pidFailWorld : RunWorld where
  logcat_spawns := true
  log_artifact := some ["10-12 ERROR crash in app", "10-12 WARNING low memory"]
  pidof_stdout := some ""
  strace_spawns := true
  strace_artifact := some ["openat(AT_FDCWD, ...)", "connect(3, ...)"]
  inotify_spawns := true
  fs_artifact := some ["/data/ CREATE f.txt", "/data/ DELETE g.txt"]
  tcpdump_spawns := true
  tshark_stdout := some ["| Frames | 5 | 0 | 0 | 100 | 200 |"]

/-- C2 evaluated on a fully successful run: the aggregate ends with only
the log and filesystem keys, because SystemCallMonitor.run and
NetworkCapture.run stop and pull their artifacts but never invoke their
parse steps, although parse_strace_output would have written the three
syscall keys. -/
theorem completed_stages_drop_syscall_network_keys :
    featureKeys (run_analysis fullWorld) =
      ["log_errors", "log_warnings", "files_created", "files_deleted"] ∧
    SystemCallMonitor_run fullWorld.pidof_stdout fullWorld.strace_spawns
      fullWorld.strace_artifact [] = [] ∧
    NetworkCapture_run fullWorld.tcpdump_spawns fullWorld.tshark_stdout
      [] = [] ∧
    featureKeys (parse_strace_output fullWorld.strace_artifact []) =
      ["system_calls_count", "file_access_calls", "network_calls"] := by
  refine ⟨?_, ?_, ?_, ?_⟩ <;> rfl

/-- C3 evaluated on a run whose pid cannot be resolved: the syscall
stage contributes no keys and the run completes, but the final aggregate
holds only the log and filesystem keys, not the three other stages'
keys, because the network stage never parses either. -/
theorem pid_unresolvable_skips_syscall_stage :
    get_app_pid pidFailWorld.pidof_stdout = none ∧
    SystemCallMonitor_run pidFailWorld.pidof_stdout
      pidFailWorld.strace_spawns pidFailWorld.strace_artifact [] = [] ∧
    featureKeys (run_analysis pidFailWorld) =
      ["log_errors", "log_warnings", "files_created", "files_deleted"] := by
  refine ⟨?_, ?_, ?_⟩ <;> rfl

/-- C7: for each of the four stages, a spawn failure yields a null
handle (and null sink) rather than an exception, and the stop operation
on those null values performs no terminate, wait, pkill or close action. -/
theorem failed_spawn_null_handle_stop_safe :
    start_logcat false = (none, none) ∧ stop_logcat none none = [] ∧
    start_strace false = none ∧ stop_strace none = [] ∧
    start_inotifywait false = (none, none) ∧ stop_inotifywait none none = [] ∧
    start_tcpdump false = none ∧ stop_tcpdump none = [] :=
  ⟨rfl, rfl, rfl, rfl, rfl, rfl, rfl, rfl⟩

/-- C8: a parse step whose artifact is missing or unreadable returns the
aggregate unchanged (its being a total function embodies that the
exception is caught), so the stage's keys are simply absent. -/
theorem parse_failure_leaves_aggregate_unchanged (m : FeatureMap) :
    parse_log_file none m = m ∧ parse_filesystem_changes none m = m ∧
    parse_strace_output none m = m ∧ parse_pcap_file none m = m :=
  ⟨rfl, rfl, rfl, rfl⟩

/-- Witness for C8 on the empty aggregate. -/
theorem parse_failure_leaves_aggregate_unchanged_witness :
    parse_log_file none [] = ([] : FeatureMap) ∧
    parse_filesystem_changes none [] = ([] : FeatureMap) ∧
    parse_strace_output none [] = ([] : FeatureMap) ∧
    parse_pcap_file none [] = ([] : FeatureMap) :=
  parse_failure_leaves_aggregate_unchanged []

/-! ## Emulator readiness polling
(gui/dynamic_feature_extraction_thread.py, EmulatorThread.check_emulator_ready)

Each attempt observes one of four outcomes: the emulator process has
stopped, the adb query raises (caught, printed, the method returns),
adb reports a connected device, or the device is not yet listed, in
which case the source sleeps and calls itself again.  The source method
has no attempt bound; the fuel argument below is the embedding's
recursion-depth budget, and a result of none means the self-recursion
has not returned within that many nested calls. -/

/-- What one readiness poll observes. -/
inductive PollResult where
  | deviceReady
  | notReady
  | processStopped
  | adbError
  deriving DecidableEq, Repr

/-- How a returning call of check_emulator_ready concluded. -/
inductive ReadyOutcome where
  | ready
  | stoppedError
  | checkError
  deriving DecidableEq, Repr

/-- EmulatorThread.check_emulator_ready: emit ready when adb lists a
device, report an error when the emulator process has stopped, return
silently on an adb exception, and otherwise sleep and call itself
again on the next attempt. -/
def check_emulator_ready (poll : Nat → PollResult) :
    Nat → Nat → Option ReadyOutcome
  | _, 0 => none
  | attempt, fuel + 1 =>
    match poll attempt with
    | PollResult.processStopped => some ReadyOutcome.stoppedError
    | PollResult.adbError => some ReadyOutcome.checkError
    | PollResult.deviceReady => some ReadyOutcome.ready
    | PollResult.notReady => check_emulator_ready poll (attempt + 1) fuel

/-- On a device that never becomes ready the self-recursion never
returns, whatever depth budget it is given. -/
lemma check_emulator_ready_notReady_none :
    ∀ fuel attempt,
      check_emulator_ready (fun _ => PollResult.notReady) attempt fuel =
        none := by
  intro fuel
  induction fuel with
  | zero => intro attempt; rfl
  | succ n ih =>
    intro attempt
    simpa [check_emulator_ready] using ih (attempt + 1)

/-- Counterexample to C9: with every poll reporting not-ready, no
recursion-depth budget suffices for check_emulator_ready to return, so
the polling is not a bounded loop and does not always terminate. -/
theorem readiness_polling_not_bounded :
    ¬ ∃ fuel,
      (check_emulator_ready (fun _ => PollResult.notReady) 0 fuel).isSome =
        true := by
  rintro ⟨fuel, h⟩
  rw [check_emulator_ready_notReady_none fuel 0] at h
  exact Bool.false_ne_true h

/-- When some attempt within the budget observes a ready device, a
stopped process or an adb error, the recursion returns. -/
lemma check_emulator_ready_terminates_aux (poll : Nat → PollResult) :
    ∀ fuel attempt,
      (∃ k, k < fuel ∧ poll (attempt + k) ≠ PollResult.notReady) →
      (check_emulator_ready poll attempt fuel).isSome = true := by
  intro fuel
  induction fuel with
  | zero =>
    rintro attempt ⟨k, hk, -⟩
    exact absurd hk (Nat.not_lt_zero k)
  | succ n ih =>
    rintro attempt ⟨k, hk, hne⟩
    cases hp : poll attempt with
    | notReady =>
      have hk0 : k ≠ 0 := by
        intro h0
        exact hne (by simpa [h0] using hp)
      obtain ⟨k2, rfl⟩ : ∃ k2, k = k2 + 1 := ⟨k - 1, by omega⟩
      have : poll (attempt + 1 + k2) ≠ PollResult.notReady := by
        have harr : attempt + 1 + k2 = attempt + (k2 + 1) := by omega
        rwa [harr]
      simpa [check_emulator_ready, hp] using
        ih (attempt + 1) ⟨k2, by omega, this⟩
    | deviceReady => simp [check_emulator_ready, hp]
    | processStopped => simp [check_emulator_ready, hp]
    | adbError => simp [check_emulator_ready, hp]

/-- C9 amended: the readiness polling returns exactly on runs in which
some poll attempt eventually observes something other than not-ready;
a budget one larger than that attempt's index suffices. -/
theorem readiness_polling_terminates_on_event (poll : Nat → PollResult)
    (n : Nat) (h : poll n ≠ PollResult.notReady) :
    (check_emulator_ready poll 0 (n + 1)).isSome = true :=
  check_emulator_ready_terminates_aux poll (n + 1) 0
    ⟨n, Nat.lt_succ_self n, by simpa using h⟩

/-- Witness for the amended C9: a device that is ready on the first poll
makes the method return within one call. -/
theorem readiness_polling_terminates_on_event_witness :
    (check_emulator_ready (fun _ => PollResult.deviceReady) 0 1).isSome =
      true :=
  readiness_polling_terminates_on_event
    (fun _ => PollResult.deviceReady) 0 (by decide)

end WhiteRabbit
